import Mathlib

/-!
Verification of the DappCon25 ticket validator (`src/App.tsx`).

The repository is a single-page React form.  The only decision logic is the
function `checkTicketValidity`, which normalizes a pasted wallet address and
then performs up to three read-only contract calls
(`getHasValidKey`, `balanceOf`, `keyExpirationTimestampFor`) against a fixed
contract, writing its verdict into five pieces of component state
(`walletAddress`, `isValidTicket`, `isLoading`, `nftDetails`, `errorInfo`).

We embed that function shallowly: the component state becomes a structure,
each external interaction (address normalization by `ethers.getAddress`,
provider/contract construction, and the three awaited contract calls)
becomes an oracle supplied by an `Env` record whose entries say whether the
interaction succeeds and with what value, or throws and with what optional
`.message`.  `checkTicketValidity` then becomes a total Lean function from
the old state and the environment to the new state together with the exact
ordered list of contract calls it issued.  Every `try`/`catch` of the source
is compiled into the corresponding `match` on an oracle outcome, so the
embedding also witnesses that no exception escapes the function.
-/

namespace TicketValidator

/-- Static ticket metadata shown for a valid ticket
    (`interface NFTDetails` in `src/App.tsx`; `keyExpiration` is an
    optional field there). -/
structure NFTDetails where
  contractName : String
  eventName : String
  keyExpiration : Option String
deriving DecidableEq, Repr

/-- The React component state read or written by `checkTicketValidity`.
    `Option` models a `null`able `useState` slot. -/
structure AppState where
  walletAddress : String
  isValidTicket : Option Bool
  isLoading : Bool
  nftDetails : Option NFTDetails
  errorInfo : Option String
deriving DecidableEq, Repr

/-- Outcome of one awaited external call: success with a value, or a thrown
    JS error whose `.message` may be absent (`none`) or any string. -/
inductive CallResult (α : Type) where
  | ok (v : α)
  | err (message : Option String)
deriving DecidableEq, Repr

/-- The three contract methods of the ABI, used to record the trace of
    network calls a validation run performs, in order. -/
inductive NetCall where
  | getHasValidKey
  | balanceOf
  | keyExpirationTimestampFor
deriving DecidableEq, Repr

/-- Environment of one validation run: what each external interaction would
    do on this input, plus the current unix time.  `getAddress` is the
    outcome of `ethers.getAddress(walletAddress)`; `ctor` is `none` when the
    `JsonRpcProvider`/`Contract` constructors succeed and `some m` when one
    of them throws with optional message `m`; the three call fields give the
    outcome of the corresponding contract method (`uint256` results are
    modelled as `Nat`). -/
structure Env where
  getAddress : CallResult String
  ctor : Option (Option String)
  getHasValidKey : CallResult Bool
  balanceOf : CallResult Nat
  keyExpirationTimestampFor : CallResult Nat
  now : Nat
deriving DecidableEq, Repr

/-- JS string truthiness: only the empty string is falsy. -/
def truthyStr (s : String) : Bool :=
  !(s == "")

/-- JS `String.prototype.trim`: strip leading and trailing whitespace.
    Defined structurally on the character list so that concrete runs
    evaluate inside the kernel. -/
def jsTrim (s : String) : String :=
  String.mk (((s.data.dropWhile Char.isWhitespace).reverse.dropWhile
    Char.isWhitespace).reverse)

/-- JS `String.prototype.includes`: substring containment, decided on the
    character lists of the two strings. -/
def jsIncludes (hay sub : String) : Bool :=
  decide (sub.data <:+: hay.data)

/-- JS `error.message || "Unknown error"` (line 136 of `src/App.tsx`):
    a missing or empty message falls back to `"Unknown error"`. -/
def messageOrUnknown (m : Option String) : String :=
  match m with
  | some msg => if truthyStr msg then msg else "Unknown error"
  | none => "Unknown error"

/-- The static `NFTDetails` attached on the valid path
    (lines 112-116 of `src/App.tsx`). -/
def staticDetails : NFTDetails :=
  { contractName := "DappCon25 Ticket"
    eventName := "DappCon 2025"
    keyExpiration := some "16th-18th June, 2025" }

/-- The `catch (validKeyError)` handler of step 1 (lines 118-130 of
    `src/App.tsx`): `setErrorInfo` is called only when the error has a
    truthy `.message`; the message is then classified by substring tests,
    reverts first, then network errors, then a generic prefix. -/
def classifyValidKeyError (m : Option String) : Option String :=
  match m with
  | some msg =>
    if truthyStr msg then
      if jsIncludes msg "call revert exception" then
        some "Contract call failed - the contract might not support this method"
      else if jsIncludes msg "network" then
        some "Network connection error - please try again"
      else
        some ("Error: " ++ msg)
    else none
  | none => none

/-- Shallow embedding of `checkTicketValidity` (lines 54-140 of
    `src/App.tsx`).  Returns the component state after the run together with
    the ordered list of contract calls issued.  Each `match` on an `Env`
    oracle compiles one `try`/`catch` of the source; `isLoading := false`
    on every exit compiles the `finally` (and the two early `return`s that
    reset it explicitly). -/
def checkTicketValidity (s : AppState) (e : Env) : AppState × List NetCall :=
  if jsTrim s.walletAddress = "" then
    (s, [])
  else
    let s := { s with isLoading := true, isValidTicket := none, errorInfo := none }
    match e.getAddress with
    | .err _ =>
      ({ s with errorInfo := some "Invalid wallet address format", isLoading := false }, [])
    | .ok _normalizedAddress =>
      match e.ctor with
      | some m =>
        ({ s with isValidTicket := some false,
                  errorInfo := some ("Error: " ++ messageOrUnknown m),
                  isLoading := false }, [])
      | none =>
        match e.getHasValidKey with
        | .err m =>
          ({ s with errorInfo := classifyValidKeyError m,
                    isValidTicket := some false,
                    isLoading := false }, [NetCall.getHasValidKey])
        | .ok hasValidKey =>
          let s := { s with isValidTicket := some hasValidKey }
          if hasValidKey then
            ({ s with nftDetails := some staticDetails, isLoading := false },
             [NetCall.getHasValidKey])
          else
            match e.balanceOf with
            | .err _ =>
              ({ s with errorInfo := some "Error checking key ownership",
                        isLoading := false },
               [NetCall.getHasValidKey, NetCall.balanceOf])
            | .ok balance =>
              if balance > 0 then
                match e.keyExpirationTimestampFor with
                | .err _ =>
                  ({ s with errorInfo := some "Error checking key expiration",
                            isLoading := false },
                   [NetCall.getHasValidKey, NetCall.balanceOf,
                    NetCall.keyExpirationTimestampFor])
                | .ok expiration =>
                  let msg :=
                    if expiration < e.now then "Your key has expired"
                    else "You own a key but it appears to be invalid"
                  ({ s with errorInfo := some msg, isLoading := false },
                   [NetCall.getHasValidKey, NetCall.balanceOf,
                    NetCall.keyExpirationTimestampFor])
              else
                ({ s with errorInfo := some "No ticket found for this address",
                          isLoading := false },
                 [NetCall.getHasValidKey, NetCall.balanceOf])

/-- The tri-state validation outcome of the spec, read off the component
    state: the success box renders on `isValidTicket === true`, the
    no-ticket box on `=== false`, and `null` is the neutral/unknown state
    (malformed input or no run yet). -/
inductive Outcome where
  | Valid
  | Invalid
  | Unknown
deriving DecidableEq, Repr

/-- Map component state to the spec-level outcome. -/
def AppState.outcome (s : AppState) : Outcome :=
  match s.isValidTicket with
  | some true => Outcome.Valid
  | some false => Outcome.Invalid
  | none => Outcome.Unknown

/-- JS truthiness of a nullable string slot. -/
def truthyOpt (m : Option String) : Bool :=
  match m with
  | some msg => truthyStr msg
  | none => false

/-- The ticket details the page actually renders: the details block sits
    only inside the success box, which renders when
    `isValidTicket === true && !errorInfo` (lines 256-294 of
    `src/App.tsx`). -/
def displayedDetails (s : AppState) : Option NFTDetails :=
  if s.isValidTicket = some true ∧ truthyOpt s.errorInfo = false then
    s.nftDetails
  else
    none

/-! Concrete states and environments used by the witnesses and
    counterexamples below. -/

/-- A fresh component state holding the repository's own fallback contract
    address as input. -/
def exState : AppState :=
  { walletAddress := "0x9340184741D938453bF66D77d551Cc04Ab2F4925"
    isValidTicket := none
    isLoading := false
    nftDetails := none
    errorInfo := none }

/-- An environment where every external interaction succeeds and the key is
    valid. -/
def exEnv : Env :=
  { getAddress := .ok "0x9340184741D938453bF66D77d551Cc04Ab2F4925"
    ctor := none
    getHasValidKey := .ok true
    balanceOf := .ok 1
    keyExpirationTimestampFor := .ok 200
    now := 100 }

/-- C10: a run on blank input leaves the state untouched and issues no
    network call.  The guard on line 55 of `src/App.tsx` fires before any
    `useState` setter or network interaction. -/
theorem blank_input_no_op (s : AppState) (e : Env)
    (h : jsTrim s.walletAddress = "") :
    checkTicketValidity s e = (s, []) := by
  simp [checkTicketValidity, h]

/-- Witness for `blank_input_no_op` at a whitespace-only input. -/
theorem blank_input_no_op_witness :
    jsTrim "  \t " = "" ∧
    checkTicketValidity { exState with walletAddress := "  \t " } exEnv
      = ({ exState with walletAddress := "  \t " }, []) := by
  refine ⟨by decide, blank_input_no_op _ exEnv (by decide)⟩

/-- C2 counterexample: the claim quantifies over every malformed
    (non-coercible) address string, but a whitespace-only input — on which
    `ethers.getAddress` would also throw — hits the blank-input guard of
    line 55 first: the run ends with no diagnostic at all (and the prior
    `errorInfo` untouched) instead of "Invalid wallet address format". -/
theorem malformed_address_counterexample :
    (checkTicketValidity { exState with walletAddress := " " }
        { exEnv with getAddress := .err (some "invalid address") }).1.errorInfo
      ≠ some "Invalid wallet address format"
    ∧ (checkTicketValidity { exState with walletAddress := " " }
        { exEnv with getAddress := .err (some "invalid address") }).1.errorInfo
      = none := by
  decide

/-- C2 (amended): for a malformed address whose trimmed form is nonempty,
    the run ends in the `Unknown` outcome with diagnostic exactly
    "Invalid wallet address format" and issues zero network calls. -/
theorem malformed_address_rejected (s : AppState) (e : Env) (m : Option String)
    (hw : jsTrim s.walletAddress ≠ "")
    (ha : e.getAddress = CallResult.err m) :
    (checkTicketValidity s e).1.outcome = Outcome.Unknown
    ∧ (checkTicketValidity s e).1.errorInfo = some "Invalid wallet address format"
    ∧ (checkTicketValidity s e).2 = [] := by
  simp [checkTicketValidity, hw, ha, AppState.outcome]

/-- Witness for `malformed_address_rejected` on a nonempty garbage input. -/
theorem malformed_address_rejected_witness :
    jsTrim "not-an-address" ≠ "" ∧
    ((checkTicketValidity { exState with walletAddress := "not-an-address" }
        { exEnv with getAddress := .err (some "invalid address") }).1.outcome
      = Outcome.Unknown
    ∧ (checkTicketValidity { exState with walletAddress := "not-an-address" }
        { exEnv with getAddress := .err (some "invalid address") }).1.errorInfo
      = some "Invalid wallet address format"
    ∧ (checkTicketValidity { exState with walletAddress := "not-an-address" }
        { exEnv with getAddress := .err (some "invalid address") }).2 = []) := by
  refine ⟨by decide, malformed_address_rejected _ _ (some "invalid address") (by decide) rfl⟩

/-- C1: when normalization and construction succeed and `getHasValidKey`
    resolves to `true`, the run ends in the `Valid` outcome, attaches
    exactly the static ticket details of lines 112-116 of `src/App.tsx`,
    and sets no diagnostic. -/
theorem valid_key_gives_valid_outcome (s : AppState) (e : Env) (a : String)
    (hw : jsTrim s.walletAddress ≠ "")
    (ha : e.getAddress = CallResult.ok a)
    (hc : e.ctor = none)
    (hk : e.getHasValidKey = CallResult.ok true) :
    (checkTicketValidity s e).1.outcome = Outcome.Valid
    ∧ (checkTicketValidity s e).1.nftDetails
      = some { contractName := "DappCon25 Ticket"
               eventName := "DappCon 2025"
               keyExpiration := some "16th-18th June, 2025" }
    ∧ (checkTicketValidity s e).1.errorInfo = none := by
  simp [checkTicketValidity, hw, ha, hc, hk, AppState.outcome, staticDetails]

/-- Witness for `valid_key_gives_valid_outcome` on the example state. -/
theorem valid_key_gives_valid_outcome_witness :
    jsTrim exState.walletAddress ≠ "" ∧
    ((checkTicketValidity exState exEnv).1.outcome = Outcome.Valid
    ∧ (checkTicketValidity exState exEnv).1.nftDetails
      = some { contractName := "DappCon25 Ticket"
               eventName := "DappCon 2025"
               keyExpiration := some "16th-18th June, 2025" }
    ∧ (checkTicketValidity exState exEnv).1.errorInfo = none) := by
  refine ⟨by decide, valid_key_gives_valid_outcome exState exEnv _ (by decide) rfl rfl rfl⟩

/-- C3: `getHasValidKey` false and a zero balance yield the `Invalid`
    outcome with diagnostic exactly "No ticket found for this address", and
    `keyExpirationTimestampFor` is never called. -/
theorem zero_balance_no_ticket (s : AppState) (e : Env) (a : String)
    (hw : jsTrim s.walletAddress ≠ "")
    (ha : e.getAddress = CallResult.ok a)
    (hc : e.ctor = none)
    (hk : e.getHasValidKey = CallResult.ok false)
    (hb : e.balanceOf = CallResult.ok 0) :
    (checkTicketValidity s e).1.outcome = Outcome.Invalid
    ∧ (checkTicketValidity s e).1.errorInfo = some "No ticket found for this address"
    ∧ NetCall.keyExpirationTimestampFor ∉ (checkTicketValidity s e).2 := by
  simp [checkTicketValidity, hw, ha, hc, hk, hb, AppState.outcome]

/-- Witness for `zero_balance_no_ticket`. -/
theorem zero_balance_no_ticket_witness :
    jsTrim exState.walletAddress ≠ "" ∧
    ((checkTicketValidity exState
        { exEnv with getHasValidKey := .ok false, balanceOf := .ok 0 }).1.outcome
      = Outcome.Invalid
    ∧ (checkTicketValidity exState
        { exEnv with getHasValidKey := .ok false, balanceOf := .ok 0 }).1.errorInfo
      = some "No ticket found for this address"
    ∧ NetCall.keyExpirationTimestampFor ∉
        (checkTicketValidity exState
          { exEnv with getHasValidKey := .ok false, balanceOf := .ok 0 }).2) := by
  refine ⟨by decide, zero_balance_no_ticket exState _ _ (by decide) rfl rfl rfl rfl⟩

/-- C4: `getHasValidKey` false with a positive balance and a successful
    expiration query yield the `Invalid` outcome; the diagnostic is
    "Your key has expired" when the expiration lies strictly before the
    current unix time and "You own a key but it appears to be invalid"
    otherwise (lines 86-96 of `src/App.tsx`). -/
theorem positive_balance_expiration_diagnostic (s : AppState) (e : Env)
    (a : String) (b exp : Nat)
    (hw : jsTrim s.walletAddress ≠ "")
    (ha : e.getAddress = CallResult.ok a)
    (hc : e.ctor = none)
    (hk : e.getHasValidKey = CallResult.ok false)
    (hb : e.balanceOf = CallResult.ok b)
    (hpos : 0 < b)
    (he : e.keyExpirationTimestampFor = CallResult.ok exp) :
    (checkTicketValidity s e).1.outcome = Outcome.Invalid
    ∧ (exp < e.now →
        (checkTicketValidity s e).1.errorInfo = some "Your key has expired")
    ∧ (e.now ≤ exp →
        (checkTicketValidity s e).1.errorInfo
          = some "You own a key but it appears to be invalid") := by
  by_cases hlt : exp < e.now
  · simp [checkTicketValidity, hw, ha, hc, hk, hb, hpos, he, hlt, AppState.outcome,
      Nat.le_of_lt, Nat.not_le_of_lt]
  · simp [checkTicketValidity, hw, ha, hc, hk, hb, hpos, he, hlt, AppState.outcome]

/-- Witness for `positive_balance_expiration_diagnostic` with an expired
    key (expiration 50 against current time 100). -/
theorem positive_balance_expiration_diagnostic_witness :
    jsTrim exState.walletAddress ≠ "" ∧ 0 < 1 ∧
    ((checkTicketValidity exState
        { exEnv with getHasValidKey := .ok false
                     keyExpirationTimestampFor := .ok 50 }).1.outcome
      = Outcome.Invalid
    ∧ (50 < ({ exEnv with getHasValidKey := .ok false
                          keyExpirationTimestampFor := .ok 50 } : Env).now →
        (checkTicketValidity exState
          { exEnv with getHasValidKey := .ok false
                       keyExpirationTimestampFor := .ok 50 }).1.errorInfo
          = some "Your key has expired")
    ∧ (({ exEnv with getHasValidKey := .ok false
                     keyExpirationTimestampFor := .ok 50 } : Env).now ≤ 50 →
        (checkTicketValidity exState
          { exEnv with getHasValidKey := .ok false
                       keyExpirationTimestampFor := .ok 50 }).1.errorInfo
          = some "You own a key but it appears to be invalid")) := by
  refine ⟨by decide, by decide,
    positive_balance_expiration_diagnostic exState _ _ 1 50
      (by decide) rfl rfl rfl rfl (by decide) rfl⟩

/-- C5 counterexample: when `getHasValidKey` throws an error without a
    `.message`, line 120 of `src/App.tsx` guards the whole classification,
    so no diagnostic at all is set — not "Error: Unknown error" as the
    claim states (that fallback lives only in the outer catch of line 136).
    The run still ends `Invalid` after exactly one network call. -/
theorem messageless_failure_counterexample :
    (checkTicketValidity exState
        { exEnv with getHasValidKey := .err none }).1.errorInfo
      ≠ some "Error: Unknown error"
    ∧ (checkTicketValidity exState
        { exEnv with getHasValidKey := .err none }).1.errorInfo = none
    ∧ (checkTicketValidity exState
        { exEnv with getHasValidKey := .err none }).1.outcome = Outcome.Invalid
    ∧ (checkTicketValidity exState
        { exEnv with getHasValidKey := .err none }).2
      = [NetCall.getHasValidKey] := by
  decide

/-- C5 (amended): when `getHasValidKey` fails, the run ends `Invalid` after
    exactly that one network call, and the diagnostic classifies the error
    message: a message containing "call revert exception" gives the
    contract-call diagnostic, else one containing "network" gives the
    network diagnostic, any other nonempty message is surfaced behind
    "Error: ", and a missing or empty message leaves the diagnostic unset
    (no "Unknown error" fallback on this path). -/
theorem hasValidKey_failure_classified (s : AppState) (e : Env)
    (a : String) (m : Option String)
    (hw : jsTrim s.walletAddress ≠ "")
    (ha : e.getAddress = CallResult.ok a)
    (hc : e.ctor = none)
    (hk : e.getHasValidKey = CallResult.err m) :
    (checkTicketValidity s e).1.outcome = Outcome.Invalid
    ∧ (checkTicketValidity s e).2 = [NetCall.getHasValidKey]
    ∧ (m = none → (checkTicketValidity s e).1.errorInfo = none)
    ∧ (∀ msg, m = some msg → msg = "" →
        (checkTicketValidity s e).1.errorInfo = none)
    ∧ (∀ msg, m = some msg → msg ≠ "" →
        jsIncludes msg "call revert exception" = true →
        (checkTicketValidity s e).1.errorInfo
          = some "Contract call failed - the contract might not support this method")
    ∧ (∀ msg, m = some msg → msg ≠ "" →
        jsIncludes msg "call revert exception" = false →
        jsIncludes msg "network" = true →
        (checkTicketValidity s e).1.errorInfo
          = some "Network connection error - please try again")
    ∧ (∀ msg, m = some msg → msg ≠ "" →
        jsIncludes msg "call revert exception" = false →
        jsIncludes msg "network" = false →
        (checkTicketValidity s e).1.errorInfo = some ("Error: " ++ msg)) := by
  refine ⟨?_, ?_, ?_, ?_, ?_, ?_, ?_⟩
  · simp [checkTicketValidity, hw, ha, hc, hk, AppState.outcome]
  · simp [checkTicketValidity, hw, ha, hc, hk]
  · intro hm
    simp [checkTicketValidity, hw, ha, hc, hk, hm, classifyValidKeyError]
  · intro msg hm hempty
    simp [checkTicketValidity, hw, ha, hc, hk, hm, hempty, classifyValidKeyError,
      truthyStr]
  · intro msg hm hne hrev
    simp [checkTicketValidity, hw, ha, hc, hk, hm, hne, hrev, classifyValidKeyError,
      truthyStr]
  · intro msg hm hne hrev hnet
    simp [checkTicketValidity, hw, ha, hc, hk, hm, hne, hrev, hnet,
      classifyValidKeyError, truthyStr]
  · intro msg hm hne hrev hnet
    simp [checkTicketValidity, hw, ha, hc, hk, hm, hne, hrev, hnet,
      classifyValidKeyError, truthyStr]

/-- Witness for `hasValidKey_failure_classified` on a network-flavoured
    error message. -/
theorem hasValidKey_failure_classified_witness :
    jsTrim exState.walletAddress ≠ "" ∧
    ((checkTicketValidity exState
        { exEnv with getHasValidKey := .err (some "network timeout") }).1.outcome
      = Outcome.Invalid
    ∧ (checkTicketValidity exState
        { exEnv with getHasValidKey := .err (some "network timeout") }).2
      = [NetCall.getHasValidKey]
    ∧ (some "network timeout" = (none : Option String) →
        (checkTicketValidity exState
          { exEnv with getHasValidKey := .err (some "network timeout") }).1.errorInfo
          = none)
    ∧ (∀ msg, some "network timeout" = some msg → msg = "" →
        (checkTicketValidity exState
          { exEnv with getHasValidKey := .err (some "network timeout") }).1.errorInfo
          = none)
    ∧ (∀ msg, some "network timeout" = some msg → msg ≠ "" →
        jsIncludes msg "call revert exception" = true →
        (checkTicketValidity exState
          { exEnv with getHasValidKey := .err (some "network timeout") }).1.errorInfo
          = some "Contract call failed - the contract might not support this method")
    ∧ (∀ msg, some "network timeout" = some msg → msg ≠ "" →
        jsIncludes msg "call revert exception" = false →
        jsIncludes msg "network" = true →
        (checkTicketValidity exState
          { exEnv with getHasValidKey := .err (some "network timeout") }).1.errorInfo
          = some "Network connection error - please try again")
    ∧ (∀ msg, some "network timeout" = some msg → msg ≠ "" →
        jsIncludes msg "call revert exception" = false →
        jsIncludes msg "network" = false →
        (checkTicketValidity exState
          { exEnv with getHasValidKey := .err (some "network timeout") }).1.errorInfo
          = some ("Error: " ++ msg))) := by
  refine ⟨by decide,
    hasValidKey_failure_classified exState _ _ (some "network timeout")
      (by decide) rfl rfl rfl⟩

/-- C6: a single run retries nothing — its call trace is a prefix of
    `[getHasValidKey, balanceOf, keyExpirationTimestampFor]` (so each
    method runs at most once, in that fixed order), `balanceOf` runs only
    after `getHasValidKey` succeeded with `false`, and
    `keyExpirationTimestampFor` runs only after `balanceOf` additionally
    succeeded with a positive balance. -/
theorem calls_ordered_no_retry (s : AppState) (e : Env) :
    List.isPrefixOf (checkTicketValidity s e).2
      [NetCall.getHasValidKey, NetCall.balanceOf, NetCall.keyExpirationTimestampFor]
      = true
    ∧ (NetCall.balanceOf ∈ (checkTicketValidity s e).2 →
        e.getHasValidKey = CallResult.ok false)
    ∧ (NetCall.keyExpirationTimestampFor ∈ (checkTicketValidity s e).2 →
        e.getHasValidKey = CallResult.ok false
        ∧ ∃ b, e.balanceOf = CallResult.ok b ∧ 0 < b) := by
  obtain ⟨ga, ct, hkr, bo, ke, tnow⟩ := e
  by_cases hw : jsTrim s.walletAddress = ""
  all_goals rcases ga with a | m1
  all_goals rcases ct with _ | m2
  all_goals rcases hkr with b | m3
  all_goals try cases b
  all_goals rcases bo with n | m4
  all_goals try rcases n with _ | n
  all_goals rcases ke with x | m5
  all_goals try by_cases hx : x < tnow
  all_goals simp [checkTicketValidity, hw, List.isPrefixOf]

/-- Witness for `calls_ordered_no_retry` on a run that reaches all three
    calls. -/
theorem calls_ordered_no_retry_witness :
    List.isPrefixOf
      (checkTicketValidity exState { exEnv with getHasValidKey := .ok false }).2
      [NetCall.getHasValidKey, NetCall.balanceOf, NetCall.keyExpirationTimestampFor]
      = true
    ∧ (NetCall.balanceOf ∈
        (checkTicketValidity exState { exEnv with getHasValidKey := .ok false }).2 →
        ({ exEnv with getHasValidKey := .ok false } : Env).getHasValidKey
          = CallResult.ok false)
    ∧ (NetCall.keyExpirationTimestampFor ∈
        (checkTicketValidity exState { exEnv with getHasValidKey := .ok false }).2 →
        ({ exEnv with getHasValidKey := .ok false } : Env).getHasValidKey
          = CallResult.ok false
        ∧ ∃ b, ({ exEnv with getHasValidKey := .ok false } : Env).balanceOf
            = CallResult.ok b ∧ 0 < b) :=
  calls_ordered_no_retry exState { exEnv with getHasValidKey := .ok false }

/-- C7: ticket details are tied to the `Valid` outcome only — whenever a
    run does not end `Valid`, the rendered page shows no details: the
    details block sits inside the success box, which requires
    `isValidTicket === true` (lines 256-294 of `src/App.tsx`).  This holds
    for repeated runs in one session even though `nftDetails` set by an
    earlier valid run is never cleared by `checkTicketValidity`. -/
theorem details_only_when_valid (s : AppState) (e : Env)
    (h : (checkTicketValidity s e).1.outcome ≠ Outcome.Valid) :
    displayedDetails (checkTicketValidity s e).1 = none := by
  have h1 : (checkTicketValidity s e).1.isValidTicket ≠ some true := by
    intro hv
    exact h (by simp [AppState.outcome, hv])
  simp [displayedDetails, h1]

/-- Witness for `details_only_when_valid`: a second run on a stale state
    that still carries details from an earlier valid run, ending not-valid. -/
theorem details_only_when_valid_witness :
    (checkTicketValidity { exState with nftDetails := some staticDetails }
        { exEnv with getHasValidKey := .ok false }).1.outcome ≠ Outcome.Valid
    ∧ displayedDetails
        (checkTicketValidity { exState with nftDetails := some staticDetails }
          { exEnv with getHasValidKey := .ok false }).1 = none :=
  ⟨by decide,
    details_only_when_valid { exState with nftDetails := some staticDetails }
      { exEnv with getHasValidKey := .ok false } (by decide)⟩

/-- C8: running the validation twice in a row on the same address with the
    same environment gives the same verdict, diagnostic, details and
    outcome both times (the run never changes `walletAddress`, and every
    verdict field it writes depends only on the address and the
    environment). -/
theorem validate_idempotent (s : AppState) (e : Env) :
    (checkTicketValidity (checkTicketValidity s e).1 e).1.isValidTicket
      = (checkTicketValidity s e).1.isValidTicket
    ∧ (checkTicketValidity (checkTicketValidity s e).1 e).1.errorInfo
      = (checkTicketValidity s e).1.errorInfo
    ∧ (checkTicketValidity (checkTicketValidity s e).1 e).1.nftDetails
      = (checkTicketValidity s e).1.nftDetails
    ∧ (checkTicketValidity (checkTicketValidity s e).1 e).1.outcome
      = (checkTicketValidity s e).1.outcome := by
  obtain ⟨ga, ct, hkr, bo, ke, tnow⟩ := e
  by_cases hw : jsTrim s.walletAddress = ""
  all_goals rcases ga with a | m1
  all_goals rcases ct with _ | m2
  all_goals rcases hkr with b | m3
  all_goals try cases b
  all_goals rcases bo with n | m4
  all_goals try rcases n with _ | n
  all_goals rcases ke with x | m5
  all_goals try by_cases hx : x < tnow
  all_goals simp [checkTicketValidity, hw]

/-- Witness for `validate_idempotent` on the example valid-key run. -/
theorem validate_idempotent_witness :
    (checkTicketValidity (checkTicketValidity exState exEnv).1 exEnv).1.isValidTicket
      = (checkTicketValidity exState exEnv).1.isValidTicket
    ∧ (checkTicketValidity (checkTicketValidity exState exEnv).1 exEnv).1.errorInfo
      = (checkTicketValidity exState exEnv).1.errorInfo
    ∧ (checkTicketValidity (checkTicketValidity exState exEnv).1 exEnv).1.nftDetails
      = (checkTicketValidity exState exEnv).1.nftDetails
    ∧ (checkTicketValidity (checkTicketValidity exState exEnv).1 exEnv).1.outcome
      = (checkTicketValidity exState exEnv).1.outcome :=
  validate_idempotent exState exEnv

/-- C9 counterexample: a `getHasValidKey` failure whose error carries an
    empty message is recovered locally (the run completes `Invalid` and
    not loading) yet is NOT converted to a diagnostic string — line 120 of
    `src/App.tsx` guards the whole handler with the message's truthiness,
    so `errorInfo` stays null.  This refutes the claim's "all errors are
    recovered locally and converted to a diagnostic string". -/
theorem recovered_error_without_diagnostic :
    (checkTicketValidity exState
        { exEnv with getHasValidKey := .err (some "") }).1.errorInfo = none
    ∧ (checkTicketValidity exState
        { exEnv with getHasValidKey := .err (some "") }).1.outcome
      = Outcome.Invalid
    ∧ (checkTicketValidity exState
        { exEnv with getHasValidKey := .err (some "") }).1.isLoading = false := by
  decide

/-- C9 (amended): for every environment — every combination of success and
    failure of normalization, construction and the three contract calls —
    a run started while not loading ends not loading, leaving the UI
    retryable, and every failure path except a `getHasValidKey` failure
    with a missing or empty message sets a diagnostic string.  That no
    exception escapes is carried by the embedding itself:
    `checkTicketValidity` is a total function in which every `err` outcome
    of the environment is consumed by the `match` arm compiling the
    corresponding `catch` of the source. -/
theorem validation_recovers_without_throwing (s : AppState) (e : Env)
    (h : s.isLoading = false) :
    (checkTicketValidity s e).1.isLoading = false
    ∧ (jsTrim s.walletAddress ≠ "" → ∀ m, e.getAddress = CallResult.err m →
        (checkTicketValidity s e).1.errorInfo ≠ none)
    ∧ (jsTrim s.walletAddress ≠ "" → ∀ a m, e.getAddress = CallResult.ok a →
        e.ctor = some m →
        (checkTicketValidity s e).1.errorInfo ≠ none)
    ∧ (jsTrim s.walletAddress ≠ "" → ∀ a msg, e.getAddress = CallResult.ok a →
        e.ctor = none → e.getHasValidKey = CallResult.err (some msg) →
        msg ≠ "" →
        (checkTicketValidity s e).1.errorInfo ≠ none)
    ∧ (jsTrim s.walletAddress ≠ "" → ∀ a m, e.getAddress = CallResult.ok a →
        e.ctor = none → e.getHasValidKey = CallResult.ok false →
        e.balanceOf = CallResult.err m →
        (checkTicketValidity s e).1.errorInfo ≠ none)
    ∧ (jsTrim s.walletAddress ≠ "" → ∀ a b m, e.getAddress = CallResult.ok a →
        e.ctor = none → e.getHasValidKey = CallResult.ok false →
        e.balanceOf = CallResult.ok b → 0 < b →
        e.keyExpirationTimestampFor = CallResult.err m →
        (checkTicketValidity s e).1.errorInfo ≠ none) := by
  refine ⟨?_, ?_, ?_, ?_, ?_, ?_⟩
  · obtain ⟨ga, ct, hkr, bo, ke, tnow⟩ := e
    by_cases hw : jsTrim s.walletAddress = ""
    all_goals rcases ga with a | m1
    all_goals rcases ct with _ | m2
    all_goals rcases hkr with b | m3
    all_goals try cases b
    all_goals rcases bo with n | m4
    all_goals try rcases n with _ | n
    all_goals rcases ke with x | m5
    all_goals try by_cases hx : x < tnow
    all_goals simp [checkTicketValidity, hw, h]
  · intro hw m ha
    simp [checkTicketValidity, hw, ha]
  · intro hw a m ha hc
    simp [checkTicketValidity, hw, ha, hc]
  · intro hw a msg ha hc hk hmsg
    have hcl : classifyValidKeyError (some msg) ≠ none := by
      simp only [classifyValidKeyError, truthyStr]
      split_ifs <;> simp_all
    simpa [checkTicketValidity, hw, ha, hc, hk] using hcl
  · intro hw a m ha hc hk hb
    simp [checkTicketValidity, hw, ha, hc, hk, hb]
  · intro hw a b m ha hc hk hb hpos he
    simp [checkTicketValidity, hw, ha, hc, hk, hb, hpos, he]

/-- Witness for `validation_recovers_without_throwing` on a run whose
    `getHasValidKey` call fails with a nonempty message. -/
theorem validation_recovers_without_throwing_witness :
    exState.isLoading = false
    ∧ ((checkTicketValidity exState
          { exEnv with getHasValidKey := .err (some "boom") }).1.isLoading = false
    ∧ (jsTrim exState.walletAddress ≠ "" → ∀ m,
        ({ exEnv with getHasValidKey := .err (some "boom") } : Env).getAddress
          = CallResult.err m →
        (checkTicketValidity exState
          { exEnv with getHasValidKey := .err (some "boom") }).1.errorInfo ≠ none)
    ∧ (jsTrim exState.walletAddress ≠ "" → ∀ a m,
        ({ exEnv with getHasValidKey := .err (some "boom") } : Env).getAddress
          = CallResult.ok a →
        ({ exEnv with getHasValidKey := .err (some "boom") } : Env).ctor = some m →
        (checkTicketValidity exState
          { exEnv with getHasValidKey := .err (some "boom") }).1.errorInfo ≠ none)
    ∧ (jsTrim exState.walletAddress ≠ "" → ∀ a msg,
        ({ exEnv with getHasValidKey := .err (some "boom") } : Env).getAddress
          = CallResult.ok a →
        ({ exEnv with getHasValidKey := .err (some "boom") } : Env).ctor = none →
        ({ exEnv with getHasValidKey := .err (some "boom") } : Env).getHasValidKey
          = CallResult.err (some msg) →
        msg ≠ "" →
        (checkTicketValidity exState
          { exEnv with getHasValidKey := .err (some "boom") }).1.errorInfo ≠ none)
    ∧ (jsTrim exState.walletAddress ≠ "" → ∀ a m,
        ({ exEnv with getHasValidKey := .err (some "boom") } : Env).getAddress
          = CallResult.ok a →
        ({ exEnv with getHasValidKey := .err (some "boom") } : Env).ctor = none →
        ({ exEnv with getHasValidKey := .err (some "boom") } : Env).getHasValidKey
          = CallResult.ok false →
        ({ exEnv with getHasValidKey := .err (some "boom") } : Env).balanceOf
          = CallResult.err m →
        (checkTicketValidity exState
          { exEnv with getHasValidKey := .err (some "boom") }).1.errorInfo ≠ none)
    ∧ (jsTrim exState.walletAddress ≠ "" → ∀ a b m,
        ({ exEnv with getHasValidKey := .err (some "boom") } : Env).getAddress
          = CallResult.ok a →
        ({ exEnv with getHasValidKey := .err (some "boom") } : Env).ctor = none →
        ({ exEnv with getHasValidKey := .err (some "boom") } : Env).getHasValidKey
          = CallResult.ok false →
        ({ exEnv with getHasValidKey := .err (some "boom") } : Env).balanceOf
          = CallResult.ok b →
        0 < b →
        ({ exEnv with getHasValidKey := .err (some "boom") } : Env).keyExpirationTimestampFor
          = CallResult.err m →
        (checkTicketValidity exState
          { exEnv with getHasValidKey := .err (some "boom") }).1.errorInfo ≠ none)) :=
  ⟨by decide,
    validation_recovers_without_throwing exState
      { exEnv with getHasValidKey := .err (some "boom") } (by decide)⟩

end TicketValidator
